import Mathlib

set_option maxRecDepth 8192

/-!
# Verification of the llm-bridge protocol-translation core

A shallow embedding of the request normalizer, the adapter dispatcher, the
non-streaming response translator and the streaming SSE re-framer of the
llm-bridge repository (`app/api/v1/endpoints/anthropic_proxy.py`,
`app/services/model_manager.py`, `app/adapters/openai_compatible.py`,
`app/core/schemas.py`), together with theorems settling the specification
claims about them.

Conventions of the embedding:
* JSON values decoded by `json.loads` are modelled by the inductive `Json`
  below; numbers are modelled as integers (no arithmetic is ever performed
  on them by the translated code, they are only passed through).
* `json.loads` itself is Python standard-library code, external to the
  repository; the streaming translator is therefore parametric in a partial
  parse function `String → Option Json` (`none` models a raised
  `json.JSONDecodeError`).  Concrete examples instantiate it with a finite
  table (`parseFixture`) that agrees with `json.loads` on the strings used.
* A Python exception that the translated code does not catch is modelled
  explicitly (the `StepOut.crash` outcome of the streaming step, or the
  `none` result of the non-streaming translator): the generator stops,
  nothing further is emitted.
* Truthiness tests (`if content:`, `if not config:` ...) are modelled by
  `pyTruthy` / explicit emptiness tests, following Python semantics on the
  values that can occur there.
-/

namespace LlmBridge

/-- A decoded JSON value, the result type of `json.loads`.  JSON `null` and
Python `None` are identified as `Json.null` (exactly what `json.loads` and
`dict.get`'s default produce in the translated code). -/
inductive Json where
  | null : Json
  | bool (b : Bool) : Json
  | num (n : Int) : Json
  | str (s : String) : Json
  | arr (elems : List Json) : Json
  | obj (fields : List (String × Json)) : Json

/-- `d.get(k)` on a Python dict modelled as an association list: the first
binding of `k`, if any. -/
def dictGet {α : Type} (kvs : List (String × α)) (k : String) : Option α :=
  (kvs.find? (fun p => p.1 == k)).map (fun p => p.2)

/-- Python truthiness of a decoded JSON value (`if content:`):
`None`, `False`, `0`, `""`, `[]` and `{}` are falsy, everything else truthy. -/
def pyTruthy : Json → Bool
  | Json.null => false
  | Json.bool b => b
  | Json.num n => n != 0
  | Json.str s => s != ""
  | Json.arr elems => !elems.isEmpty
  | Json.obj fields => !fields.isEmpty

/-- The ASCII whitespace characters removed by Python's `str.strip()`
(`str.strip` also removes rarer Unicode spaces, which never occur in the
byte streams handled here). -/
def isPyWhitespace (c : Char) : Bool :=
  c = ' ' || c = '\t' || c = '\n' || c = '\r' || c = '\x0b' || c = '\x0c'

/-- `s.strip()`: drop leading and trailing whitespace. -/
def pyStrip (s : String) : String :=
  String.mk (((s.toList.dropWhile isPyWhitespace).reverse.dropWhile isPyWhitespace).reverse)

/-- The outbound Anthropic-format SSE events the streaming translator
`_full_response_translator` can emit.  `messageStart` carries the payload of
the `message_start` framing event: the generated response id, the target
model name, the `content` list and the `input_tokens`/`output_tokens` usage
counters (the code always fills in `[]`, `0`, `0`).  `contentBlockDelta`
carries the block `index` and the `text` of the `text_delta`. -/
inductive AnthEvent where
  | messageStart (id : String) (model : String) (content : List Json)
      (inputTokens : Nat) (outputTokens : Nat) : AnthEvent
  | contentBlockDelta (index : Nat) (text : Json) : AnthEvent
  | messageStop : AnthEvent

/-- Outcome of processing one upstream chunk inside the translator's loop:
no event, one event, or an uncaught Python exception (which aborts the
generator). -/
inductive StepOut where
  | skip : StepOut
  | emit (e : AnthEvent) : StepOut
  | crash : StepOut

/-- `data.get("choices", [{}])[0].get("delta", {}).get("content")` with
Python exception semantics: `some c` is the extracted content value (`null`
when the key is absent), `none` is an uncaught exception — `AttributeError`
when `data`, `choices[0]` or the `delta` value is not a dict, `IndexError` /
`TypeError` / `KeyError` when the `choices` value does not admit `[0]` as a
dict (only `json.JSONDecodeError` is caught by the surrounding `try`). -/
def extractDeltaContent : Json → Option Json
  | Json.obj kvs =>
    match (dictGet kvs "choices").getD (Json.arr [Json.obj []]) with
    | Json.arr (first :: _) =>
      match first with
      | Json.obj fkvs =>
        match (dictGet fkvs "delta").getD (Json.obj []) with
        | Json.obj dkvs => some ((dictGet dkvs "content").getD Json.null)
        | _ => none
      | _ => none
    | _ => none
  | _ => none

/-- One iteration of the chunk loop of `_full_response_translator`
(lines 101-118): decode+strip the chunk; skip it when empty or when it is
the sentinel `data: [DONE]`; otherwise parse the payload after the first six
characters (`chunk_str[6:]`), skipping the chunk on a parse failure (the
failure is logged to the fire-and-forget observability sink, which carries
no events and is not modelled); from a parsed payload extract the delta
content and emit a `content_block_delta` with block index `0` exactly when
the content is truthy. -/
def processChunk (parse : String → Option Json) (chunk : String) : StepOut :=
  if pyStrip chunk = "" ∨ pyStrip chunk = "data: [DONE]" then StepOut.skip
  else
    match parse ((pyStrip chunk).drop 6) with
    | none => StepOut.skip
    | some data =>
      match extractDeltaContent data with
      | none => StepOut.crash
      | some content =>
        if pyTruthy content then StepOut.emit (AnthEvent.contentBlockDelta 0 content)
        else StepOut.skip

/-- Run the chunk loop over a whole upstream chunk sequence.  Returns the
events emitted in order, and `true` iff the loop ran to completion without
an uncaught exception. -/
def runChunks (parse : String → Option Json) : List String → List AnthEvent × Bool
  | [] => ([], true)
  | c :: rest =>
    match processChunk parse c with
    | StepOut.skip => runChunks parse rest
    | StepOut.emit e =>
      let r := runChunks parse rest
      (e :: r.1, r.2)
    | StepOut.crash => ([], false)

/-- `_full_response_translator` on the streaming (async-generator) branch:
first a `message_start` event with a generated id (`msgId` models the
`uuid4`-based identifier), the request's model name, empty content and zero
usage counters; then the translated chunks; finally a single `message_stop`
event — emitted only if the loop was not aborted by an uncaught exception
(an exception propagates out of the generator and ends the response). -/
def fullResponseTranslator (parse : String → Option Json) (msgId : String)
    (model : String) (chunks : List String) : List AnthEvent :=
  AnthEvent.messageStart msgId model [] 0 0 ::
    ((runChunks parse chunks).1 ++
      (if (runChunks parse chunks).2 then [AnthEvent.messageStop] else []))

/-- The translated non-streaming response built by the `anthropic_proxy`
endpoint (lines 140-148): the fields of the `translated_response` dict whose
values depend on the upstream payload, plus the constants.  `text` is the
value placed at `content[0].text`. -/
structure TranslatedResponse where
  id : String
  model : Json
  text : Json
  stopReason : String
  usage : Json

/-- The non-streaming branch of `anthropic_proxy` (lines 139-149), applied
to the decoded upstream payload `resp`.  `msgId` models the `uuid4`-based
identifier, `stdModel` is `standard_request.model`.  `none` models an
uncaught Python exception while building the dict (`AttributeError` /
`IndexError` / `TypeError` / `KeyError` from
`resp.get("choices", [{}])[0].get("message", {}).get("content", "")` when a
*present* value has the wrong shape); such an exception is caught by the
endpoint's outer `except Exception` and turned into a generic 500 error
response, not into any shape-specific error. -/
def translateNonStreaming (msgId : String) (stdModel : String) (resp : Json) :
    Option TranslatedResponse :=
  match resp with
  | Json.obj kvs =>
    match (dictGet kvs "choices").getD (Json.arr [Json.obj []]) with
    | Json.arr (first :: _) =>
      match first with
      | Json.obj fkvs =>
        match (dictGet fkvs "message").getD (Json.obj []) with
        | Json.obj mkvs =>
          some { id := msgId
                 model := (dictGet kvs "model").getD (Json.str stdModel)
                 text := (dictGet mkvs "content").getD (Json.str "")
                 stopReason := "end_turn"
                 usage := (dictGet kvs "usage").getD
                   (Json.obj [("prompt_tokens", Json.num 0),
                              ("completion_tokens", Json.num 0)]) }
        | _ => none
      | _ => none
    | _ => none
  | _ => none

/-! ## Schemas (`app/core/schemas.py`) and the request normalizer -/

/-- `ChatMessage` from `app/core/schemas.py`: role, optional content,
optional tool calls (opaque dicts) and optional tool-call id.  The role is
one of the literals `system`/`user`/`assistant`/`tool`, modelled as a
string. -/
structure ChatMessage where
  role : String
  content : Option String := none
  tool_calls : Option (List Json) := none
  tool_call_id : Option String := none

/-- `StandardizedChatRequest` from `app/core/schemas.py` (lines 41-53): the
canonical internal request.  Numeric parameters are modelled as rationals —
the code only passes them through, never computes with them — with the
pydantic defaults `temperature=0.7`, `top_p=1.0`. -/
structure StandardizedChatRequest where
  model : String
  messages : List ChatMessage
  stream : Bool := false
  tools : Option (List Json) := none
  tool_choice : Option Json := none
  temperature : Option ℚ := some (7 / 10)
  top_p : Option ℚ := some 1
  max_tokens : Option Int := none

/-- Modelled from the spec: `AnthropicContentBlock` is imported by the
endpoint from `app/core/schemas.py` but its definition is absent from the
source snapshot.  Per the spec's content-block description and the
endpoint's usage (`block.type`, `block.text`), it is a typed block with an
optional text payload. -/
structure AnthropicContentBlock where
  type : String
  text : Option String := none
deriving DecidableEq

/-- Inbound Anthropic message content: either a plain string or a list of
typed content blocks (the `Union[str, List[AnthropicContentBlock]]` of the
endpoint's signature). -/
inductive AnthContent where
  | str (s : String) : AnthContent
  | blocks (l : List AnthropicContentBlock) : AnthContent
deriving DecidableEq

/-- Python truthiness of an inbound content value (`if anthropic_request.system:`):
an empty string and an empty block list are falsy. -/
def anthContentTruthy : AnthContent → Bool
  | AnthContent.str s => s != ""
  | AnthContent.blocks l => !l.isEmpty

/-- Modelled from the spec: the message entry of the inbound
`AnthropicChatRequest` (absent from the source snapshot); a role and a
content value, as used by `_transform_anthropic_to_standard`. -/
structure AnthropicMessage where
  role : String
  content : AnthContent
deriving DecidableEq

/-- Modelled from the spec: `AnthropicChatRequest` is imported by the
endpoint from `app/core/schemas.py` but its definition is absent from the
source snapshot.  Fields follow the spec's normalizer description and the
fields the endpoint and its tests read: model, messages, optional system
content, stream flag, the numeric parameters, and the inbound tool
definitions / tool-choice directive of the Anthropic wire format. -/
structure AnthropicChatRequest where
  model : String
  messages : List AnthropicMessage
  system : Option AnthContent := none
  stream : Bool := false
  temperature : Option ℚ := none
  top_p : Option ℚ := none
  max_tokens : Option Int := none
  tools : Option (List Json) := none
  tool_choice : Option Json := none

/-- `_extract_text_from_anthropic_content` (lines 27-39): a plain string is
returned as is; for a block list, the `text` of every block whose `type` is
`"text"` and whose `text` is truthy (not `None`, not empty) is appended, and
the pieces are joined with no separator. -/
def extractTextFromAnthropicContent : AnthContent → String
  | AnthContent.str s => s
  | AnthContent.blocks l =>
    (l.filterMap (fun b =>
      if b.type = "text" then
        match b.text with
        | some t => if t = "" then none else some t
        | none => none
      else none)).foldr (fun a acc => a ++ acc) ""

/-- Specification-side definition, for the refinement claim about text
blocks only: concatenate the text of *all* `text`-typed blocks in list
order with no separator (an absent text contributes the empty string). -/
def specTextConcat (l : List AnthropicContentBlock) : String :=
  ((l.filter (fun b => b.type == "text")).map (fun b => b.text.getD "")).foldr
    (fun a acc => a ++ acc) ""

/-- `_transform_anthropic_to_standard` (lines 42-78).  `override` models
`os.getenv("DEFAULT_MODEL_OVERRIDE")` (`none` = unset); a truthy override
unconditionally replaces the inbound model name.  A system message is
prepended when the system content is truthy and extracts to non-empty text;
each inbound message is kept only when its extracted text is non-empty.
`tools` and `tool_choice` are not passed to the constructor and therefore
take their `None` defaults. -/
def transformAnthropicToStandard (override : Option String)
    (r : AnthropicChatRequest) : StandardizedChatRequest :=
  let finalModelName :=
    match override with
    | some o => if o = "" then r.model else o
    | none => r.model
  let systemMessages : List ChatMessage :=
    match r.system with
    | some c =>
      if anthContentTruthy c then
        let t := extractTextFromAnthropicContent c
        if t = "" then [] else [{ role := "system", content := some t }]
      else []
    | none => []
  let mappedMessages : List ChatMessage :=
    r.messages.filterMap (fun m =>
      let t := extractTextFromAnthropicContent m.content
      if t = "" then none else some { role := m.role, content := some t })
  { model := finalModelName
    messages := systemMessages ++ mappedMessages
    stream := r.stream
    temperature := r.temperature
    top_p := r.top_p
    max_tokens := r.max_tokens }

/-! ## The OpenAI-compatible adapter (`app/adapters/openai_compatible.py`) -/

/-- `msg.dict(exclude_none=True)`: the message serialized as a JSON object,
with fields in declaration order and `None`-valued fields omitted. -/
def chatMessageDict (m : ChatMessage) : Json :=
  Json.obj
    ([("role", Json.str m.role)]
      ++ (match m.content with
          | some c => [("content", Json.str c)]
          | none => [])
      ++ (match m.tool_calls with
          | some tc => [("tool_calls", Json.arr tc)]
          | none => [])
      ++ (match m.tool_call_id with
          | some i => [("tool_call_id", Json.str i)]
          | none => []))

/-- The outbound JSON payload built by
`OpenAICompatibleAdapter.chat_completions` (lines 52-56): exactly the keys
`model`, `messages` and `stream`. -/
def chatCompletionsPayload (r : StandardizedChatRequest) : Json :=
  Json.obj
    [("model", Json.str r.model),
     ("messages", Json.arr (r.messages.map chatMessageDict)),
     ("stream", Json.bool r.stream)]

/-- Key lookup on a JSON object (`none` on any other value). -/
def jsonLookup (j : Json) (k : String) : Option Json :=
  match j with
  | Json.obj kvs => dictGet kvs k
  | _ => none

/-! ## The adapter dispatcher (`app/services/model_manager.py`) -/

/-- The errors `get_adapter` can raise.  In the Python source
`unknownModel` and the two missing-configuration errors are `ValueError`s
and `unsupportedAdapter` is a `NotImplementedError`; the spec names the
first two cases `UnknownModelError` and `UnsupportedAdapterError`. -/
inductive AdapterError where
  | unknownModel (modelName : String) : AdapterError
  | unsupportedAdapter (adapterName : Option String) (modelName : String) : AdapterError
  | missingConfigName (modelName : String) : AdapterError
  | missingEnvValue (varName : String) : AdapterError
deriving DecidableEq

/-- The resolved adapter: a stateless descriptor holding the credential and
endpoint (`adapter_class(api_key=..., base_url=...)`).  Constructing it
performs no network activity. -/
structure AdapterHandle where
  apiKey : String
  baseUrl : String
deriving DecidableEq

/-- `ADAPTER_CLASS_MAP` (lines 21-24): the registered adapter kinds; only
`OpenAICompatibleAdapter` is registered (the Anthropic entry is commented
out). -/
def ADAPTER_CLASS_MAP : List String := ["OpenAICompatibleAdapter"]

/-- `get_adapter` (lines 52-80).  `modelConfigs` models the `MODEL_CONFIGS`
dict loaded from `models.yml` (each entry a string-valued dict), `env`
models `os.getenv`.  Mirrors the source order of checks and Python
truthiness: a missing *or empty* config entry raises the not-configured
`ValueError`; a missing, empty or unregistered adapter name raises
`NotImplementedError`; missing/empty key names or environment values raise
`ValueError`s.  The `lru_cache` memoization is semantically transparent for
a pure function and is not modelled. -/
def getAdapter (modelConfigs : List (String × List (String × String)))
    (env : String → Option String) (modelName : String) :
    Except AdapterError AdapterHandle :=
  match dictGet modelConfigs modelName with
  | none => Except.error (AdapterError.unknownModel modelName)
  | some config =>
    if config = [] then Except.error (AdapterError.unknownModel modelName)
    else
      let adapterName := dictGet config "adapter"
      if adapterName.getD "" = "" ∨ adapterName.getD "" ∉ ADAPTER_CLASS_MAP then
        Except.error (AdapterError.unsupportedAdapter adapterName modelName)
      else
        let apiKeyName := (dictGet config "api_key_name").getD ""
        let baseUrlName := (dictGet config "base_url_name").getD ""
        if apiKeyName = "" ∨ baseUrlName = "" then
          Except.error (AdapterError.missingConfigName modelName)
        else
          let apiKey := (env apiKeyName).getD ""
          let baseUrl := (env baseUrlName).getD ""
          if apiKey = "" then Except.error (AdapterError.missingEnvValue apiKeyName)
          else if baseUrl = "" then Except.error (AdapterError.missingEnvValue baseUrlName)
          else Except.ok { apiKey := apiKey, baseUrl := baseUrl }

/-- The dispatch-then-forward step of the `anthropic_proxy` endpoint
(lines 131-132): `get_adapter` is called first and any failure propagates
before `adapter.chat_completions` — the only place an outbound network call
happens — is ever invoked.  The second component counts the invocations of
the transport collaborator `send`. -/
def dispatchThenSend (modelConfigs : List (String × List (String × String)))
    (env : String → Option String) (modelName : String)
    (send : AdapterHandle → Json) : Except AdapterError Json × Nat :=
  match getAdapter modelConfigs env modelName with
  | Except.error e => (Except.error e, 0)
  | Except.ok h => (Except.ok (send h), 1)

/-! ## Concrete fixtures

Payload strings used by the concrete examples, and a finite table agreeing
with `json.loads` on them. -/

/-- The payload text of a well-formed content-delta chunk with delta text
`"X"`, i.e. the JSON text of the spec's example chunk. -/
def xDeltaPayload : String :=
  "\x7b\"choices\":[\x7b\"delta\":\x7b\"content\":\"X\"\x7d\x7d]\x7d"

/-- `json.loads` of `xDeltaPayload`. -/
def xDeltaJson : Json :=
  Json.obj [("choices",
    Json.arr [Json.obj [("delta", Json.obj [("content", Json.str "X")])]])]

/-- A syntactically valid payload whose `choices` list is empty. -/
def emptyChoicesPayload : String := "\x7b\"choices\":[]\x7d"

/-- The payload text of a first tool-call fragment for tool-call index 0:
a delta carrying `tool_calls` (tool name, call id, partial argument JSON)
and no `content`. -/
def toolCallPayload : String :=
  "\x7b\"choices\":[\x7b\"delta\":\x7b\"tool_calls\":[\x7b\"index\":0,\"id\":\"call_0\",\"function\":\x7b\"name\":\"get_weather\",\"arguments\":\"\x7b\\\"city\\\":\\\"Par\"\x7d\x7d]\x7d\x7d]\x7d"

/-- `json.loads` of `toolCallPayload`. -/
def toolCallJson : Json :=
  Json.obj [("choices", Json.arr [Json.obj [("delta",
    Json.obj [("tool_calls", Json.arr [Json.obj
      [("index", Json.num 0),
       ("id", Json.str "call_0"),
       ("function", Json.obj
         [("name", Json.str "get_weather"),
          ("arguments", Json.str "\x7b\"city\":\"Par")])]])])]])]

/-- The behavior of `json.loads` on the payload strings appearing in the
concrete examples of this file.  Every other string is mapped to `none`;
among the strings the examples feed to the parse, the unlisted ones
(`"\x7bbad json"`, on which `json.loads` raises `json.JSONDecodeError`) are
exactly the invalid ones. -/
def parseFixture (s : String) : Option Json :=
  if s = xDeltaPayload then some xDeltaJson
  else if s = emptyChoicesPayload then some (Json.obj [("choices", Json.arr [])])
  else if s = toolCallPayload then some toolCallJson
  else none

/-! ## Helper lemmas -/

/-- The sentinel chunk is skipped by the chunk loop: it hits the
`continue` branch, emitting nothing and changing nothing. -/
theorem processChunk_sentinel (parse : String → Option Json) :
    processChunk parse "data: [DONE]" = StepOut.skip := by
  unfold processChunk
  rw [if_pos (Or.inr (by decide))]

/-- Inserting a chunk that the loop skips anywhere in the chunk sequence
does not change the result of the loop. -/
theorem runChunks_insert_skip (parse : String → Option Json) (s : String)
    (h : processChunk parse s = StepOut.skip) (pre post : List String) :
    runChunks parse (pre ++ s :: post) = runChunks parse (pre ++ post) := by
  induction pre with
  | nil => simp [runChunks, h]
  | cons c pre ih =>
    cases hc : processChunk parse c <;> simp [runChunks, hc, ih]

/-- The only event the chunk loop ever emits is a `content_block_delta`
with block index 0. -/
theorem processChunk_emit_delta (parse : String → Option Json) (c : String)
    (e : AnthEvent) (h : processChunk parse c = StepOut.emit e) :
    ∃ t, e = AnthEvent.contentBlockDelta 0 t := by
  unfold processChunk at h
  split at h
  · simp at h
  · split at h
    · simp at h
    · split at h
      · simp at h
      · split at h
        · exact ⟨_, (StepOut.emit.injEq _ _).mp h |>.symm⟩
        · simp at h

/-- If no chunk of the sequence makes the loop raise, the loop completes
and every emitted event is a `content_block_delta` with block index 0. -/
theorem runChunks_no_crash (parse : String → Option Json)
    (chunks : List String)
    (h : ∀ c ∈ chunks, processChunk parse c ≠ StepOut.crash) :
    (runChunks parse chunks).2 = true ∧
      ∀ e ∈ (runChunks parse chunks).1, ∃ t, e = AnthEvent.contentBlockDelta 0 t := by
  induction chunks with
  | nil => exact ⟨rfl, by simp [runChunks]⟩
  | cons c rest ih =>
    have hrest := ih (fun c' hc' => h c' (List.mem_cons_of_mem _ hc'))
    cases hc : processChunk parse c with
    | skip => simpa [runChunks, hc] using hrest
    | crash => exact absurd hc (h c (List.mem_cons_self _ _))
    | emit e =>
      refine ⟨by simp [runChunks, hc, hrest.1], ?_⟩
      intro e' he'
      simp only [runChunks, hc, List.mem_cons] at he'
      rcases he' with rfl | he'
      · exact processChunk_emit_delta parse c e' hc
      · exact hrest.2 e' he'

/-! ## Claim C1 -/

/-- C1, counterexample.  The claim states that after the sentinel chunk
`data: [DONE]` the translator is in a terminal state and produces no
further events, well-formed content chunks arriving after it yielding no
`content_block_delta`.  On the concrete upstream sequence
`["data: [DONE]", "data: {"choices":[{"delta":{"content":"X"}}]}"]` the
code (which merely `continue`s on the sentinel, line 103) still emits a
`content_block_delta` with text `"X"` for the post-sentinel chunk, and the
terminal event is not the only event at or after the sentinel. -/
theorem c1_sentinel_claim_counterexample :
    fullResponseTranslator parseFixture "msg-proxy-0" "target-model"
      ["data: [DONE]", "data: " ++ xDeltaPayload] =
    [AnthEvent.messageStart "msg-proxy-0" "target-model" [] 0 0,
     AnthEvent.contentBlockDelta 0 (Json.str "X"),
     AnthEvent.messageStop] := rfl

/-- C1, amended.  The sentinel chunk is skipped exactly like a blank
keep-alive chunk: it yields no event, but the translator does not enter a
terminal state — translating a sequence with the sentinel inserted anywhere
gives the same events as translating the sequence without it, so chunks
arriving after the sentinel (including well-formed content-delta chunks)
are still translated, and the single terminal event is emitted only when
the upstream sequence itself ends. -/
theorem c1_sentinel_skipped_translation_unchanged
    (parse : String → Option Json) (msgId model : String)
    (pre post : List String) :
    fullResponseTranslator parse msgId model (pre ++ "data: [DONE]" :: post) =
      fullResponseTranslator parse msgId model (pre ++ post) := by
  unfold fullResponseTranslator
  rw [runChunks_insert_skip parse _ (processChunk_sentinel parse) pre post]

/-! ## Claim C2 -/

/-- C2, counterexample.  The claim states that every streaming translation
emits exactly one terminal `message_stop`.  On the single upstream chunk
`data: {"choices":[]}` — valid JSON — the code evaluates
`data.get("choices", [{}])[0]` on an empty list, raising an `IndexError`
that the `except json.JSONDecodeError` clause does not catch; the generator
aborts and no `message_stop` is ever emitted. -/
theorem c2_message_stop_claim_counterexample :
    fullResponseTranslator parseFixture "msg-proxy-0" "target-model"
      ["data: " ++ emptyChoicesPayload] =
    [AnthEvent.messageStart "msg-proxy-0" "target-model" [] 0 0] := rfl

/-- C2, amended.  Exactly one `message_start` (with the generated id, the
target model name, empty content and zero usage counters) is always emitted
first, before any `content_block_*` event; and whenever no chunk makes the
loop raise an uncaught exception — in particular for any stream of
well-formed delta chunks and/or chunks that fail JSON parsing, with or
without a `[DONE]` terminator — exactly one terminal `message_stop` is
emitted, as the last event. -/
theorem c2_framing_events_amended (parse : String → Option Json)
    (msgId model : String) (chunks : List String)
    (h : ∀ c ∈ chunks, processChunk parse c ≠ StepOut.crash) :
    ∃ deltas : List AnthEvent,
      fullResponseTranslator parse msgId model chunks =
        AnthEvent.messageStart msgId model [] 0 0 ::
          (deltas ++ [AnthEvent.messageStop]) ∧
      ∀ e ∈ deltas, ∃ t, e = AnthEvent.contentBlockDelta 0 t := by
  obtain ⟨h2, hall⟩ := runChunks_no_crash parse chunks h
  exact ⟨(runChunks parse chunks).1, by rw [fullResponseTranslator, h2, if_pos rfl], hall⟩

/-- C2, witness: the amended theorem applied to the one-chunk stream
carrying the delta text `"X"` and no `[DONE]` terminator. -/
theorem c2_framing_events_amended_witness :
    ∃ deltas : List AnthEvent,
      fullResponseTranslator parseFixture "msg-proxy-0" "target-model"
          ["data: " ++ xDeltaPayload] =
        AnthEvent.messageStart "msg-proxy-0" "target-model" [] 0 0 ::
          (deltas ++ [AnthEvent.messageStop]) ∧
      ∀ e ∈ deltas, ∃ t, e = AnthEvent.contentBlockDelta 0 t :=
  c2_framing_events_amended parseFixture "msg-proxy-0" "target-model"
    ["data: " ++ xDeltaPayload]
    (by
      intro c hc
      rw [List.mem_singleton] at hc
      subst hc
      rw [show processChunk parseFixture ("data: " ++ xDeltaPayload) =
            StepOut.emit (AnthEvent.contentBlockDelta 0 (Json.str "X")) from rfl]
      simp)

/-! ## Claim C3 -/

/-- C3.  A chunk whose payload after the data marker fails JSON parsing is
skipped — no event, no abort, the remaining chunks are translated exactly
as if the bad chunk were absent (the failure is additionally logged to the
fire-and-forget observability sink, which carries no events); and on the
spec's concrete upstream sequence
`["data: {bad json", "data: {"choices":[{"delta":{"content":"X"}}]}",
"data: [DONE]"]` the translator emits exactly one content-delta event with
text `"X"` followed by the terminal event. -/
theorem c3_bad_json_skipped :
    (∀ (parse : String → Option Json) (c : String) (rest : List String),
        parse ((pyStrip c).drop 6) = none →
        runChunks parse (c :: rest) = runChunks parse rest) ∧
      fullResponseTranslator parseFixture "msg-proxy-0" "target-model"
          ["data: \x7bbad json", "data: " ++ xDeltaPayload, "data: [DONE]"] =
        [AnthEvent.messageStart "msg-proxy-0" "target-model" [] 0 0,
         AnthEvent.contentBlockDelta 0 (Json.str "X"),
         AnthEvent.messageStop] := by
  constructor
  · intro parse c rest hp
    by_cases hs : pyStrip c = "" ∨ pyStrip c = "data: [DONE]"
    · simp [runChunks, processChunk, hs]
    · simp [runChunks, processChunk, hs, hp]
  · rfl

/-- C3, witness: the skip part of the theorem applied to the concrete
invalid chunk `data: {bad json`. -/
theorem c3_bad_json_skipped_witness :
    runChunks parseFixture ["data: \x7bbad json"] = runChunks parseFixture [] :=
  c3_bad_json_skipped.1 parseFixture "data: \x7bbad json" [] rfl

/-! ## Claim C4 -/

/-- C4, counterexample.  The claim states that the first tool-call fragment
for a tool-call index makes the translator emit a block-start event (tool
name, call id, empty input) and then an input-delta event.  On the concrete
upstream chunk carrying a first fragment for index 0 (tool name
`get_weather`, call id `call_0`, partial argument JSON) the translator
emits nothing but the two framing events: the chunk loop only ever reads
`delta.get("content")` (lines 107-115), there is no tool-call handling and
no block-start or input-delta event anywhere in its output alphabet. -/
theorem c4_tool_call_claim_counterexample :
    fullResponseTranslator parseFixture "msg-proxy-0" "target-model"
      ["data: " ++ toolCallPayload] =
    [AnthEvent.messageStart "msg-proxy-0" "target-model" [] 0 0,
     AnthEvent.messageStop] := rfl

/-- C4, amended.  A chunk whose parsed payload extracts a non-truthy delta
content — which is what every tool-call fragment extracts, since a
`tool_calls` delta carries no `content` key and so extracts `None` — yields
no event at all: the chunk is dropped and translation of the remaining
chunks is unchanged.  Tool-call fragments, first or subsequent, are simply
not translated. -/
theorem c4_tool_fragments_no_events
    (parse : String → Option Json) (c : String) (rest : List String)
    (data content : Json)
    (hp : parse ((pyStrip c).drop 6) = some data)
    (he : extractDeltaContent data = some content)
    (ht : pyTruthy content = false) :
    runChunks parse (c :: rest) = runChunks parse rest := by
  by_cases hs : pyStrip c = "" ∨ pyStrip c = "data: [DONE]"
  · simp [runChunks, processChunk, hs]
  · simp [runChunks, processChunk, hs, hp, he, ht]

/-- C4, witness: the amended theorem applied to the concrete first
tool-call fragment for index 0. -/
theorem c4_tool_fragments_no_events_witness :
    runChunks parseFixture ["data: " ++ toolCallPayload] =
      runChunks parseFixture [] :=
  c4_tool_fragments_no_events parseFixture ("data: " ++ toolCallPayload) []
    toolCallJson Json.null rfl rfl rfl

/-! ## Claim C5 -/

/-- C5, counterexample.  The claim states that a non-streaming upstream
payload lacking the mandatory top-level `choices`/`message` path makes
translation fail with an `UpstreamShapeError` rather than silently
defaulting the extracted text to empty.  On the concrete payload `{}` —
where the whole path is absent — translation succeeds and the extracted
text silently defaults to the empty string: every step of
`resp.get("choices", [{}])[0].get("message", {}).get("content", "")`
falls back to its default (lines 144-147), and no `UpstreamShapeError`
exists anywhere in the code. -/
theorem c5_upstream_shape_claim_counterexample :
    translateNonStreaming "msg-proxy-0" "m" (Json.obj []) =
    some { id := "msg-proxy-0", model := Json.str "m", text := Json.str "",
           stopReason := "end_turn",
           usage := Json.obj [("prompt_tokens", Json.num 0),
                              ("completion_tokens", Json.num 0)] } := rfl

/-- C5, amended.  When the top-level `choices` key is absent, non-streaming
translation does not fail: it succeeds with the extracted text silently
defaulted to the empty string (and model/usage defaulted from the request
and to zero counters).  Translation aborts only when a *present* value is
malformed — e.g. an empty `choices` list — and then with an uncaught
generic exception turned into a 500 response, not an `UpstreamShapeError`. -/
theorem c5_absent_structure_defaults_empty
    (msgId stdModel : String) (kvs : List (String × Json))
    (h : dictGet kvs "choices" = none) :
    translateNonStreaming msgId stdModel (Json.obj kvs) =
      some { id := msgId,
             model := (dictGet kvs "model").getD (Json.str stdModel),
             text := Json.str "",
             stopReason := "end_turn",
             usage := (dictGet kvs "usage").getD
               (Json.obj [("prompt_tokens", Json.num 0),
                          ("completion_tokens", Json.num 0)]) } ∧
    translateNonStreaming msgId stdModel (Json.obj [("choices", Json.arr [])]) =
      none := by
  constructor
  · simp only [translateNonStreaming]
    rw [h]
    rfl
  · rfl

/-- C5, witness: the amended theorem applied to the payload
`{"model": "upstream-model"}`, which has no `choices` key. -/
theorem c5_absent_structure_defaults_empty_witness :
    translateNonStreaming "msg-proxy-0" "m"
        (Json.obj [("model", Json.str "upstream-model")]) =
      some { id := "msg-proxy-0",
             model := (dictGet [("model", Json.str "upstream-model")] "model").getD
               (Json.str "m"),
             text := Json.str "",
             stopReason := "end_turn",
             usage := (dictGet [("model", Json.str "upstream-model")] "usage").getD
               (Json.obj [("prompt_tokens", Json.num 0),
                          ("completion_tokens", Json.num 0)]) } ∧
    translateNonStreaming "msg-proxy-0" "m"
        (Json.obj [("choices", Json.arr [])]) = none :=
  c5_absent_structure_defaults_empty "msg-proxy-0" "m"
    [("model", Json.str "upstream-model")] rfl

/-! ## Claim C6 -/

/-- An inbound request carrying explicit numeric sampling parameters, for
the C6 counterexample. -/
def paramsRequest : AnthropicChatRequest :=
  { model := "claude-x"
    messages := [{ role := "user", content := AnthContent.str "Hi" }]
    temperature := some (1 / 2)
    top_p := some (9 / 10)
    max_tokens := some 128 }

/-- C6, counterexample.  The claim states that a present
temperature/top_p/max_tokens is forwarded unmodified through normalization
*and into the outbound payload sent to the backend*.  On a concrete request
with `temperature=0.5`, `top_p=0.9`, `max_tokens=128`, normalization does
forward the values, but the payload built by
`OpenAICompatibleAdapter.chat_completions` (lines 52-56) contains none of
the three keys — they never reach the backend. -/
theorem c6_params_outbound_counterexample :
    (transformAnthropicToStandard none paramsRequest).temperature = some (1 / 2) ∧
    (transformAnthropicToStandard none paramsRequest).top_p = some (9 / 10) ∧
    (transformAnthropicToStandard none paramsRequest).max_tokens = some 128 ∧
    jsonLookup (chatCompletionsPayload (transformAnthropicToStandard none paramsRequest))
      "temperature" = none ∧
    jsonLookup (chatCompletionsPayload (transformAnthropicToStandard none paramsRequest))
      "top_p" = none ∧
    jsonLookup (chatCompletionsPayload (transformAnthropicToStandard none paramsRequest))
      "max_tokens" = none :=
  ⟨rfl, rfl, rfl, rfl, rfl, rfl⟩

/-- C6, amended.  Normalization forwards temperature/top_p/max_tokens
verbatim (present or absent, no clamping, no re-defaulting) into the
canonical request; but the OpenAI-compatible adapter then drops them: its
outbound payload carries only `model`, `messages` and `stream`, so the
numeric parameters never reach the backend. -/
theorem c6_params_pass_normalization_dropped_by_adapter :
    (∀ (o : Option String) (r : AnthropicChatRequest),
        (transformAnthropicToStandard o r).temperature = r.temperature ∧
        (transformAnthropicToStandard o r).top_p = r.top_p ∧
        (transformAnthropicToStandard o r).max_tokens = r.max_tokens) ∧
      ∀ s : StandardizedChatRequest,
        jsonLookup (chatCompletionsPayload s) "temperature" = none ∧
        jsonLookup (chatCompletionsPayload s) "top_p" = none ∧
        jsonLookup (chatCompletionsPayload s) "max_tokens" = none :=
  ⟨fun _ _ => ⟨rfl, rfl, rfl⟩, fun _ => ⟨rfl, rfl, rfl⟩⟩

/-! ## Claim C7 -/

/-- An inbound request whose only message has empty content, for the C7
counterexample. -/
def emptyContentRequest : AnthropicChatRequest :=
  { model := "m", messages := [{ role := "user", content := AnthContent.str "" }] }

/-- C7, counterexample.  The claim states that every well-formed inbound
request with a non-empty messages list normalizes to a canonical request
with a non-empty messages list.  The concrete request with the single
message `{role: "user", content: ""}` and no system field has a non-empty
inbound list, yet normalizes to an *empty* canonical messages list: the
`if content_text:` guard (line 68) drops every message whose extracted text
is empty. -/
theorem c7_nonempty_messages_counterexample :
    emptyContentRequest.messages ≠ [] ∧
    (transformAnthropicToStandard none emptyContentRequest).messages = [] :=
  ⟨List.cons_ne_nil _ _, rfl⟩

/-- The canonical messages produced by normalization, written out. -/
theorem transform_messages_eq (o : Option String) (r : AnthropicChatRequest) :
    (transformAnthropicToStandard o r).messages =
      (match r.system with
        | some c =>
          if anthContentTruthy c then
            if extractTextFromAnthropicContent c = "" then []
            else [{ role := "system",
                    content := some (extractTextFromAnthropicContent c) }]
          else []
        | none => []) ++
      r.messages.filterMap (fun m =>
        if extractTextFromAnthropicContent m.content = "" then none
        else some { role := m.role,
                    content := some (extractTextFromAnthropicContent m.content) }) := rfl

/-- C7, amended.  The canonical messages list is non-empty provided some
inbound message has non-empty extracted text (messages whose content
extracts to the empty string are dropped by normalization; a truthy system
field with non-empty text likewise suffices on its own). -/
theorem c7_messages_nonempty_amended (o : Option String)
    (r : AnthropicChatRequest) (m : AnthropicMessage)
    (hm : m ∈ r.messages)
    (ht : extractTextFromAnthropicContent m.content ≠ "") :
    (transformAnthropicToStandard o r).messages ≠ [] := by
  intro hnil
  rw [transform_messages_eq, List.append_eq_nil] at hnil
  have hmem :
      ({ role := m.role, content := some (extractTextFromAnthropicContent m.content) } :
        ChatMessage) ∈
      r.messages.filterMap (fun m' =>
        if extractTextFromAnthropicContent m'.content = "" then none
        else some { role := m'.role,
                    content := some (extractTextFromAnthropicContent m'.content) }) :=
    List.mem_filterMap.mpr ⟨m, hm, by rw [if_neg ht]⟩
  rw [hnil.2] at hmem
  exact List.not_mem_nil _ hmem

/-- C7, witness: the amended theorem applied to a request with one message
of non-empty content. -/
theorem c7_messages_nonempty_amended_witness :
    (transformAnthropicToStandard none
      { model := "m",
        messages := [{ role := "user", content := AnthContent.str "Hi" }] }).messages ≠ [] :=
  c7_messages_nonempty_amended none _
    { role := "user", content := AnthContent.str "Hi" }
    (List.mem_singleton.mpr rfl) (by decide)

/-! ## Claim C8 -/

/-- C8.  On a list of typed content blocks, `_extract_text_from_anthropic_content`
returns exactly the concatenation of the text of all `text`-typed blocks in
list order with no separator inserted (the code additionally skips blocks
whose text is `None` or empty, which contribute nothing to the
concatenation anyway); and non-text blocks are ignored — removing one from
anywhere in the list does not change the result (the function is total: no
block type makes it raise). -/
theorem c8_text_block_concatenation :
    (∀ l : List AnthropicContentBlock,
        extractTextFromAnthropicContent (AnthContent.blocks l) = specTextConcat l) ∧
      ∀ (l1 l2 : List AnthropicContentBlock) (b : AnthropicContentBlock),
        b.type ≠ "text" →
        extractTextFromAnthropicContent (AnthContent.blocks (l1 ++ b :: l2)) =
          extractTextFromAnthropicContent (AnthContent.blocks (l1 ++ l2)) := by
  have part1 : ∀ l,
      extractTextFromAnthropicContent (AnthContent.blocks l) = specTextConcat l := by
    intro l
    induction l with
    | nil => rfl
    | cons b t ih =>
      simp only [extractTextFromAnthropicContent, specTextConcat] at ih ⊢
      by_cases hb : b.type = "text"
      · cases hbt : b.text with
        | none => simp [List.filterMap_cons, List.filter_cons, hb, hbt, ih]
        | some s =>
          by_cases hs : s = ""
          · simp [List.filterMap_cons, List.filter_cons, hb, hbt, hs, ih]
          · simp [List.filterMap_cons, List.filter_cons, hb, hbt, hs, ih]
      · simp [List.filterMap_cons, List.filter_cons, hb, ih]
  refine ⟨part1, ?_⟩
  intro l1 l2 b hb
  rw [part1, part1]
  simp only [specTextConcat, List.filter_append, List.filter_cons]
  simp [hb]

/-- C8, witness: the theorem applied to a concrete block list mixing text
and non-text blocks, and to the removal of a concrete `tool_use` block. -/
theorem c8_text_block_concatenation_witness :
    extractTextFromAnthropicContent (AnthContent.blocks
        [{ type := "text", text := some "ab" }, { type := "image", text := none },
         { type := "text", text := some "c" }]) =
      specTextConcat
        [{ type := "text", text := some "ab" }, { type := "image", text := none },
         { type := "text", text := some "c" }] ∧
    extractTextFromAnthropicContent (AnthContent.blocks
        ([] ++ ({ type := "tool_use", text := none } : AnthropicContentBlock) :: [])) =
      extractTextFromAnthropicContent (AnthContent.blocks ([] ++ [])) :=
  ⟨c8_text_block_concatenation.1 _,
   c8_text_block_concatenation.2 [] [] { type := "tool_use", text := none } (by decide)⟩

/-! ## Claim C9 -/

/-- C9.  Dispatching a model name with no configuration entry fails with
the unknown-model error and the transport collaborator is invoked zero
times; dispatching a configured entry whose adapter kind has no registered
implementation fails with the unsupported-adapter error, likewise with zero
transport invocations. -/
theorem c9_dispatch_errors_before_send
    (modelConfigs : List (String × List (String × String)))
    (env : String → Option String) (modelName : String)
    (send : AdapterHandle → Json) :
    (dictGet modelConfigs modelName = none →
      dispatchThenSend modelConfigs env modelName send =
        (Except.error (AdapterError.unknownModel modelName), 0)) ∧
    ∀ config adapterName,
      dictGet modelConfigs modelName = some config →
      dictGet config "adapter" = some adapterName →
      adapterName ∉ ADAPTER_CLASS_MAP →
      dispatchThenSend modelConfigs env modelName send =
        (Except.error (AdapterError.unsupportedAdapter (some adapterName) modelName), 0) := by
  constructor
  · intro h
    simp [dispatchThenSend, getAdapter, h]
  · intro config adapterName h1 h2 h3
    have hc : config ≠ [] := by
      intro hc
      rw [hc] at h2
      simp [dictGet] at h2
    simp [dispatchThenSend, getAdapter, h1, h2, hc, h3]

/-- Configuration table for the C9 witness: one model, whose configured
adapter kind (`AnthropicAdapter`, commented out in `ADAPTER_CLASS_MAP`) has
no registered implementation. -/
def witnessConfigs : List (String × List (String × String)) :=
  [("m1", [("adapter", "AnthropicAdapter")])]

/-- C9, witness: both error paths of the theorem at concrete inputs — an
unconfigured model name, and a configured model whose adapter kind is
unregistered; in both cases the transport double records zero
invocations. -/
theorem c9_dispatch_errors_before_send_witness :
    dispatchThenSend witnessConfigs (fun _ => none) "ghost-model" (fun _ => Json.null) =
      (Except.error (AdapterError.unknownModel "ghost-model"), 0) ∧
    dispatchThenSend witnessConfigs (fun _ => none) "m1" (fun _ => Json.null) =
      (Except.error (AdapterError.unsupportedAdapter (some "AnthropicAdapter") "m1"), 0) :=
  ⟨(c9_dispatch_errors_before_send witnessConfigs (fun _ => none) "ghost-model"
      (fun _ => Json.null)).1 rfl,
   (c9_dispatch_errors_before_send witnessConfigs (fun _ => none) "m1"
      (fun _ => Json.null)).2 [("adapter", "AnthropicAdapter")] "AnthropicAdapter"
      rfl rfl (by decide)⟩

/-! ## Claim C10 -/

/-- C10.  The canonical request produced by normalization always has
`tools = None` and `tool_choice = None` — whatever tool definitions or
tool-choice directive the inbound request carries, they are dropped
(`_transform_anthropic_to_standard` never passes them to the constructor)
and the adapter's outbound payload has no `tools`/`tool_choice` key, so
they never reach the backend. -/
theorem c10_tools_dropped (o : Option String) (r : AnthropicChatRequest) :
    (transformAnthropicToStandard o r).tools = none ∧
    (transformAnthropicToStandard o r).tool_choice = none ∧
    jsonLookup (chatCompletionsPayload (transformAnthropicToStandard o r))
      "tools" = none ∧
    jsonLookup (chatCompletionsPayload (transformAnthropicToStandard o r))
      "tool_choice" = none :=
  ⟨rfl, rfl, rfl, rfl⟩

end LlmBridge
